import Mathlib

/-!
Shallow embedding of the fortytwo-lang (FTL) compiler front-end, together
with theorems settling the frozen claims about it.

The embedding follows the Rust sources:
  * `src/src/source/*`            — positions, `PositionContainer`, `Source`
  * `src/src/token.rs`            — `TokenKind`, `Token`
  * `src/src/ast/*`               — the AST data model
  * `src/src/parser/*`            — expression / instruction / function parsing
  * `src/src/semantic_analyzer/*` — symbol table scan and type checker
  * `src/src/emitter/c/mod.rs`    — the C emitter
  * `src/src/lexer/mod.rs`        — the (older-generation) lexer snapshot,
    used for the comment-reading termination claim

Rust's `i64` literals are modelled as `Int` and `f64` literals as `Rat`;
no claim computes with a numeric literal's value (literals are only stored,
printed, or matched on their constructor), so only decidable equality of
the payload matters. Iterator state is modelled by explicit list passing,
`&mut self` methods by explicit state passing, and Rust loops by fuel-indexed
recursion where the loop is not structurally recursive.
-/

set_option linter.unusedVariables false

namespace FTL

/-- Position in the source code: 1-based line/column, 0-based offset
(`src/src/source/position.rs`). -/
structure Position where
  line : Nat
  column : Nat
  offset : Nat
deriving DecidableEq, Repr

/-- Position range from start to end, both inclusive
(`src/src/source/position_range.rs`). -/
structure PositionRange where
  start : Position
  stop : Position
deriving DecidableEq, Repr

/-- The source file: name and text (`src/src/source/mod.rs`); the character
buffer is modelled as a `String`. Shared `Arc<Source>` references are
modelled by plain values. -/
structure Source where
  name : String
  text : String
deriving DecidableEq, Repr

/-- A `PositionRange` together with the source it refers to
(`src/src/source/source_position.rs`). -/
structure SourcePositionRange where
  source : Source
  position : PositionRange
deriving DecidableEq, Repr

/-- Wrapper for values inside source code with position information
(`src/src/source/position_container.rs`). -/
structure PositionContainer (α : Type) where
  position : SourcePositionRange
  inner : α
deriving DecidableEq

/-- Integer literal payload, Rust `i64`. -/
abbrev I64 := Int

/-- Float literal payload, Rust `f64`, modelled as a rational: no claim
performs float arithmetic, so only the stored value's identity matters. -/
abbrev F64 := Rat

/-- The token alphabet of the current generation (`src/src/token.rs`). -/
inductive TokenKind where
  | Def
  | Extern
  | Identifier (s : String)
  | Float (f : F64)
  | Int (i : I64)
  | Comment (s : String)
  | Plus
  | Star
  | Minus
  | Less
  | Greater
  | OpeningParentheses
  | ClosingParentheses
  | OpeningCurlyBraces
  | ClosingCurlyBraces
  | OpeningSquareBrackets
  | ClosingSquareBrackets
  | Comma
  | Semicolon
  | Colon
  | Slash
  | Equal
  | NotEqual
  | BitOr
  | BitAnd
  | Modulus
  | If
  | Else
  | While
  | Dot
  | EndOfLine
  | Pointer
  | Struct
  | Var
  | Return
deriving DecidableEq

/-- A `TokenKind` with its position (`src/src/token.rs`). -/
abbrev Token := PositionContainer TokenKind

/-- A basic data type with hardware support
(`src/src/ast/statement/basic_data_type.rs`). -/
inductive BasicDataType where
  | Int
  | Float
deriving DecidableEq

/-- Rust `BasicDataType::try_from(&str)`: converts a type name to a basic data
type, `Err(())` when the name is not basic. -/
def BasicDataType.tryFrom (data_type : String) : Except Unit BasicDataType :=
  match data_type with
  | "int" => .ok .Int
  | "float" => .ok .Float
  | _ => .error ()

/-- A data type: basic, struct, or pointer
(`src/src/ast/statement/data_type.rs`). The pointee is boxed in Rust;
the box is elided. -/
inductive DataType where
  | Basic (b : BasicDataType)
  | Struct (name : String)
  | Pointer (pointer : PositionContainer DataType)

/-- Decidable equality of data types (Rust derives `PartialEq` on
`DataType`); written by hand because the type nests through
`PositionContainer`. -/
def DataType.decEq : (a b : DataType) → Decidable (a = b)
  | .Basic x, .Basic y =>
    if h : x = y then isTrue (by rw [h]) else isFalse (fun hh => by cases hh; exact h rfl)
  | .Basic _, .Struct _ => isFalse (fun h => DataType.noConfusion h)
  | .Basic _, .Pointer _ => isFalse (fun h => DataType.noConfusion h)
  | .Struct _, .Basic _ => isFalse (fun h => DataType.noConfusion h)
  | .Struct x, .Struct y =>
    if h : x = y then isTrue (by rw [h]) else isFalse (fun hh => by cases hh; exact h rfl)
  | .Struct _, .Pointer _ => isFalse (fun h => DataType.noConfusion h)
  | .Pointer _, .Basic _ => isFalse (fun h => DataType.noConfusion h)
  | .Pointer _, .Struct _ => isFalse (fun h => DataType.noConfusion h)
  | .Pointer ⟨pos1, d1⟩, .Pointer ⟨pos2, d2⟩ =>
    match DataType.decEq d1 d2 with
    | isTrue h2 =>
      if h1 : pos1 = pos2 then isTrue (by rw [h1, h2])
      else isFalse (fun hh => by cases hh; exact h1 rfl)
    | isFalse h2 => isFalse (fun hh => by cases hh; exact h2 rfl)

instance : DecidableEq DataType := DataType.decEq

/-- A binary operator connecting a lhs and a rhs
(`src/src/ast/expression/binary_operator.rs`). -/
inductive BinaryOperator where
  | Less
  | Greater
  | Add
  | Subtract
  | Multiply
  | Divide
  | Equal
  | NotEqual
deriving DecidableEq

/-- The precedence table used by `BinaryOperator::partial_cmp`
(`src/src/ast/expression/binary_operator.rs`, the `HashMap` literal). -/
def BinaryOperator.precedence : BinaryOperator → Nat
  | .Less => 10
  | .Greater => 10
  | .Add => 20
  | .Subtract => 20
  | .Multiply => 30
  | .Divide => 30
  | .Equal => 5
  | .NotEqual => 5

/-- Rust `next_operator > operator` on `PositionContainer<BinaryOperator>`:
`PositionContainer`'s `PartialOrd` delegates to the inner value, whose
`partial_cmp` compares the precedences. -/
def BinaryOperator.gt (a b : BinaryOperator) : Bool :=
  b.precedence < a.precedence

/-- Number literal payload (`src/src/ast/expression/mod.rs`). -/
inductive NumberKind where
  | Int (i : I64)
  | Float (f : F64)
deriving DecidableEq

/-- A number literal with position (`src/src/ast/expression/mod.rs`). -/
abbrev Number := PositionContainer NumberKind

/-- An expression (`src/src/ast/expression/mod.rs`). The payload structs
`BinaryExpression {lhs, operator, rhs}` and `FunctionCall {name, params}`
are inlined as constructor fields; Rust's `Box` is elided. -/
inductive Expression where
  | BinaryExpression (lhs : Expression) (operator : PositionContainer BinaryOperator)
      (rhs : Expression)
  | FunctionCall (name : PositionContainer String) (params : List Expression)
  | Number (number : Number)
  | Variable (name : PositionContainer String)

/-- A variable declaration `var name: data_type = value`
(`src/src/ast/statement/var_assignment.rs`). -/
structure VariableDeclaration where
  name : PositionContainer String
  data_type : PositionContainer DataType
  value : Expression

/-- A variable assignment `name = value`
(`src/src/ast/statement/var_assignment.rs`). -/
structure VariableAssignment where
  name : PositionContainer String
  value : Expression

/-- A statement (`src/src/ast/statement/mod.rs`): exactly variable
declaration or variable assignment. -/
inductive Statement where
  | VariableDeclaration (d : FTL.VariableDeclaration)
  | VariableAssignment (a : FTL.VariableAssignment)

mutual

/-- A "regular" line of code (`src/src/ast/mod.rs`). Rust's `Box` on the
if-else and while payloads is elided. -/
inductive Instruction where
  | Expression (e : FTL.Expression)
  | Statement (s : FTL.Statement)
  | IfElse (ie : FTL.IfElse)
  | WhileLoop (w : FTL.WhileLoop)

/-- An if-else with condition, if-true block, if-false block
(`src/src/ast/if_else.rs`); an empty if-false block means no else. -/
inductive IfElse where
  | mk (condition : FTL.Expression) (if_true : List Instruction)
      (if_false : List Instruction)

/-- A while loop (`src/src/ast/while_loop.rs`). -/
inductive WhileLoop where
  | mk (condition : FTL.Expression) (body : List Instruction)

end

def IfElse.condition : IfElse → Expression
  | .mk c _ _ => c

def IfElse.if_true : IfElse → List Instruction
  | .mk _ t _ => t

def IfElse.if_false : IfElse → List Instruction
  | .mk _ _ f => f

def WhileLoop.condition : WhileLoop → Expression
  | .mk c _ => c

def WhileLoop.body : WhileLoop → List Instruction
  | .mk _ b => b

/-- A list of instructions (`src/src/ast/mod.rs`). -/
abbrev Block := List Instruction

/-- A function argument of a prototype (`src/src/ast/function_argument.rs`). -/
structure FunctionArgument where
  name : PositionContainer String
  data_type : PositionContainer DataType

/-- A function prototype: name, arguments, optional return type
(`src/src/ast/function_prototype.rs`). -/
structure FunctionPrototype where
  name : PositionContainer String
  args : List FunctionArgument
  return_type : Option (PositionContainer DataType)

/-- A function definition: prototype and body
(`src/src/ast/function_definition.rs`). -/
structure FunctionDefinition where
  prototype : FunctionPrototype
  body : Block

/-- A struct field (`src/src/ast/struct_.rs`). -/
structure Field where
  name : PositionContainer String
  data_type : PositionContainer DataType

/-- A struct definition (`src/src/ast/struct_.rs`). -/
structure Struct where
  name : PositionContainer String
  fields : List Field

/-- A top-level AST node (`src/src/ast/mod.rs`). -/
inductive Node where
  | FunctionPrototype (p : FTL.FunctionPrototype)
  | Function (f : FTL.FunctionDefinition)
  | Struct (s : FTL.Struct)

/-! ## C emitter (`src/src/emitter/c/mod.rs`)

The Rust emitter writes to an `io::Write` sink; the embedding builds the
written `String`. Only the fragments the claims are about are embedded:
the binary-expression operator table and expression rendering, and the
data-type rendering. -/

/-- The operator spelling table inside `Emitter::binary_expression`
(`src/src/emitter/c/mod.rs` lines 95–104). -/
def Emitter.binaryOperatorStr : BinaryOperator → String
  | .Add => "+"
  | .Subtract => "-"
  | .Multiply => "*"
  | .Divide => "/"
  | .Less => "<"
  | .Greater => ">"
  | .Equal => "=="
  | .NotEqual => "=/="

/-- Rust `Emitter::number`: write the literal with `{}` formatting. The decimal
rendering of i64 is `toString`; the f64 rendering is not modelled further
(no claim depends on it). -/
def Emitter.number (n : Number) : String :=
  match n.inner with
  | .Int i => toString i
  | .Float f => toString f

/-- Rust `Emitter::variable`: write the variable name. -/
def Emitter.variableStr (v : PositionContainer String) : String :=
  v.inner

/-- Rust `Emitter::expression` and the methods it dispatches to, inlined into one
recursive function. The `BinaryExpression` arm is `Emitter::binary_expression`
(emit lhs, the operator padded by single spaces, then rhs — no parentheses
are written); the `FunctionCall` arm is `Emitter::function_call` (`name(`,
each param in order with no separator, `);` and a newline). -/
def Emitter.expression : Expression → String
  | .BinaryExpression lhs op rhs =>
    Emitter.expression lhs ++ " " ++ Emitter.binaryOperatorStr op.inner ++ " "
      ++ Emitter.expression rhs
  | .FunctionCall name params =>
    name.inner ++ "(" ++ String.join (params.attach.map (fun p => Emitter.expression p.1))
      ++ ");\n"
  | .Number n => Emitter.number n
  | .Variable v => Emitter.variableStr v
termination_by e => sizeOf e
decreasing_by
  all_goals simp_wf
  all_goals first
    | omega
    | (have hmem := List.sizeOf_lt_of_mem p.2; omega)

/-- Rust `Emitter::basic_data_type` (`src/src/emitter/c/mod.rs` lines 208–216):
`Int` is written `int`, `Float` is written `float`. -/
def Emitter.basic_data_type : BasicDataType → String
  | .Int => "int"
  | .Float => "float"

/-- Rust `Emitter::struct_name`: write the struct name as-is. -/
def Emitter.struct_name (name : String) : String := name

/-- Rust `Emitter::data_type` (`src/src/emitter/c/mod.rs` lines 197–206):
dispatch on the data type variant. The `Pointer` arm is `Emitter::pointer`
(lines 222–228) inlined: write the literal `ptr`, then the pointee type. -/
def Emitter.data_type : PositionContainer DataType → String
  | ⟨_, .Basic basic⟩ => Emitter.basic_data_type basic
  | ⟨_, .Struct name⟩ => Emitter.struct_name name
  | ⟨_, .Pointer pointer⟩ => "ptr" ++ Emitter.data_type pointer

/-! ## Parser (`src/src/parser/*`)

The parser pulls from a `Peekable` token iterator; the embedding passes the
remaining token list explicitly: `peek` is `List.head?` and a consuming
`next` is `head?` plus `tail`. Rust loops and recursion become fuel-indexed
recursion; `ParserError.OutOfFuel` is an artifact of the embedding and is
never produced when the fuel exceeds the number of remaining tokens. -/

/-- The remaining token stream. -/
abbrev Tokens := List Token

/-- The parser's error type. The current-generation parser's `Error` enum is
used via its two constructors `ExpectedToken {expected, found}` and
`IllegalToken {token, context}` (see `src/src/parser/helper.rs` and
`src/src/parser/expression.rs`; spec §4.3 error discipline). -/
inductive ParserError where
  | ExpectedToken (expected : TokenKind) (found : Option Token)
  | IllegalToken (token : Option Token) (context : String)
  | OutOfFuel
deriving DecidableEq

/-- Rust `helper::parse_identifier`. -/
def helper.parse_identifier : Option Token → Except ParserError (PositionContainer String)
  | some ⟨position, .Identifier ident⟩ => .ok ⟨position, ident⟩
  | other => .error (.ExpectedToken (.Identifier "") other)

/-- Rust `helper::parse_opening_parenthesis`. -/
def helper.parse_opening_parenthesis : Option Token → Except ParserError Unit
  | some ⟨_, .OpeningParentheses⟩ => .ok ()
  | other => .error (.ExpectedToken .OpeningParentheses other)

/-- Rust `helper::parse_closing_parenthesis`. -/
def helper.parse_closing_parenthesis : Option Token → Except ParserError Unit
  | some ⟨_, .ClosingParentheses⟩ => .ok ()
  | other => .error (.ExpectedToken .ClosingParentheses other)

/-- Rust `helper::parse_colon`. -/
def helper.parse_colon : Option Token → Except ParserError Unit
  | some ⟨_, .Colon⟩ => .ok ()
  | other => .error (.ExpectedToken .Colon other)

/-- Rust `helper::parse_opening_curly_parenthesis`. -/
def helper.parse_opening_curly_parenthesis : Option Token → Except ParserError Unit
  | some ⟨_, .OpeningCurlyBraces⟩ => .ok ()
  | other => .error (.ExpectedToken .OpeningCurlyBraces other)

/-- Rust `helper::parse_closing_curly_parenthesis`. -/
def helper.parse_closing_curly_parenthesis : Option Token → Except ParserError Unit
  | some ⟨_, .ClosingCurlyBraces⟩ => .ok ()
  | other => .error (.ExpectedToken .ClosingCurlyBraces other)

/-- Rust `helper::parse_variable_declaration`: expects the `var` keyword. -/
def helper.parse_variable_declaration : Option Token → Except ParserError Unit
  | some ⟨_, .Var⟩ => .ok ()
  | other => .error (.ExpectedToken .Var other)

/-- Rust `helper::parse_equal`. -/
def helper.parse_equal : Option Token → Except ParserError Unit
  | some ⟨_, .Equal⟩ => .ok ()
  | other => .error (.ExpectedToken .Equal other)

/-- Rust `helper::parse_if`. -/
def helper.parse_if : Option Token → Except ParserError Unit
  | some ⟨_, .If⟩ => .ok ()
  | other => .error (.ExpectedToken .If other)

/-- Rust `helper::parse_while`. -/
def helper.parse_while : Option Token → Except ParserError Unit
  | some ⟨_, .While⟩ => .ok ()
  | other => .error (.ExpectedToken .While other)

/-- Rust `helper::parse_operator`: converts an operator token into a
`BinaryOperator`; other tokens yield `ExpectedToken {expected: Plus}`,
a missing token yields `IllegalToken {context: "operator"}`. -/
def helper.parse_operator : Option Token → Except ParserError (PositionContainer BinaryOperator)
  | some token =>
    match token.inner with
    | .Plus => .ok ⟨token.position, .Add⟩
    | .Minus => .ok ⟨token.position, .Subtract⟩
    | .Star => .ok ⟨token.position, .Multiply⟩
    | .Slash => .ok ⟨token.position, .Divide⟩
    | .Equal => .ok ⟨token.position, .Equal⟩
    | .NotEqual => .ok ⟨token.position, .NotEqual⟩
    | .Less => .ok ⟨token.position, .Less⟩
    | .Greater => .ok ⟨token.position, .Greater⟩
    | _ => .error (.ExpectedToken .Plus (some token))
  | none => .error (.IllegalToken none "operator")

/-- Rust `expression::parse_float` (`src/src/parser/expression.rs`): consumes one
token; accepts a float literal, and also an int literal (kept as `Int`). -/
def parse_float : Tokens → Except ParserError (PositionContainer NumberKind × Tokens)
  | ⟨position, .Float f⟩ :: rest => .ok (⟨position, .Float f⟩, rest)
  | ⟨position, .Int i⟩ :: rest => .ok (⟨position, .Int i⟩, rest)
  | other => .error (.ExpectedToken (.Float 0) other.head?)

/-- Rust `expression::parse_int`: consumes one token; accepts an int literal. -/
def parse_int : Tokens → Except ParserError (PositionContainer NumberKind × Tokens)
  | ⟨position, .Int i⟩ :: rest => .ok (⟨position, .Int i⟩, rest)
  | other => .error (.ExpectedToken (.Int 0) other.head?)

mutual

/-- Rust `expression::parse_primary_expression` (`src/src/parser/expression.rs`
lines 15–23): dispatch on the peeked token. -/
def parse_primary_expression : Nat → Tokens → Except ParserError (Expression × Tokens)
  | 0, _ => .error .OutOfFuel
  | fuel + 1, tokens =>
    match tokens.head? with
    | some ⟨_, .Identifier _⟩ => parse_identifier_expression fuel tokens
    | some ⟨_, .Float _⟩ => do
      let (n, ts) ← parse_float tokens
      .ok (.Number n, ts)
    | some ⟨_, .Int _⟩ => do
      let (n, ts) ← parse_int tokens
      .ok (.Number n, ts)
    | some ⟨_, .OpeningParentheses⟩ => parse_parentheses fuel tokens
    | other => .error (.IllegalToken other "expression")

/-- Rust `expression::parse_identifier_expression`: an identifier followed by `(`
is a function call, otherwise a variable. -/
def parse_identifier_expression : Nat → Tokens → Except ParserError (Expression × Tokens)
  | 0, _ => .error .OutOfFuel
  | fuel + 1, tokens => do
    let identifier ← helper.parse_identifier tokens.head?
    let ts := tokens.tail
    match ts.head? with
    | some ⟨_, .OpeningParentheses⟩ => parse_function_call fuel ts identifier
    | _ => .ok (.Variable identifier, ts)

/-- Rust `function::parse_function_call` (`src/src/parser/function.rs`): builds a
`FunctionCall` expression from the already-read name and the parameter list. -/
def parse_function_call (fuel : Nat) (tokens : Tokens) (identifier : PositionContainer String) :
    Except ParserError (Expression × Tokens) :=
  match fuel with
  | 0 => .error .OutOfFuel
  | fuel + 1 => do
    let (params, ts) ← parse_function_parameters fuel tokens
    .ok (.FunctionCall identifier params, ts)

/-- Rust `function::parse_function_parameters`: `(`, optionally empty list of
primary expressions separated by commas, `)`. -/
def parse_function_parameters : Nat → Tokens → Except ParserError (List Expression × Tokens)
  | 0, _ => .error .OutOfFuel
  | fuel + 1, tokens => do
    let _ ← helper.parse_opening_parenthesis tokens.head?
    let ts := tokens.tail
    match ts.head? with
    | some ⟨_, .ClosingParentheses⟩ => .ok ([], ts.tail)
    | _ => parse_function_parameters_loop fuel ts []

/-- The collection loop of `function::parse_function_parameters`. -/
def parse_function_parameters_loop (fuel : Nat) (tokens : Tokens) (parameters : List Expression) :
    Except ParserError (List Expression × Tokens) :=
  match fuel with
  | 0 => .error .OutOfFuel
  | fuel + 1 => do
    let (parameter, ts) ← parse_primary_expression fuel tokens
    let parameters := parameters ++ [parameter]
    match ts.head? with
    | some ⟨_, .Comma⟩ => parse_function_parameters_loop fuel ts.tail parameters
    | _ => do
      let _ ← helper.parse_closing_parenthesis ts.head?
      .ok (parameters, ts.tail)

/-- Rust `expression::parse_parentheses`: `(`, a binary expression, `)`. -/
def parse_parentheses : Nat → Tokens → Except ParserError (Expression × Tokens)
  | 0, _ => .error .OutOfFuel
  | fuel + 1, tokens => do
    let _ ← helper.parse_opening_parenthesis tokens.head?
    let (expr, ts) ← parse_binary_expression fuel tokens.tail
    let _ ← helper.parse_closing_parenthesis ts.head?
    .ok (expr, ts.tail)

/-- Rust `expression::parse_binary_expression` (`src/src/parser/expression.rs`
lines 63–68): parse a primary as lhs, then the rhs climbing loop. -/
def parse_binary_expression : Nat → Tokens → Except ParserError (Expression × Tokens)
  | 0, _ => .error .OutOfFuel
  | fuel + 1, tokens => do
    let (lhs, ts) ← parse_primary_expression fuel tokens
    parse_binary_expression_rhs fuel lhs none ts

/-- Rust `expression::parse_binary_expression_rhs` (`src/src/parser/expression.rs`
lines 70–106). One fuel step per iteration of the Rust `loop`: peek an
operator (return `lhs` when there is none), consume it, parse a primary as
rhs, let rhs absorb a following strictly-higher-precedence operator by
recursion, fold into a `BinaryExpression`, continue. The `min_operator`
parameter is threaded exactly as in the source, where it is never read. -/
def parse_binary_expression_rhs (fuel : Nat) (lhs : Expression)
    (min_operator : Option (PositionContainer BinaryOperator)) (tokens : Tokens) :
    Except ParserError (Expression × Tokens) :=
  match fuel with
  | 0 => .error .OutOfFuel
  | fuel + 1 =>
    match helper.parse_operator tokens.head? with
    | .error _ => .ok (lhs, tokens)
    | .ok operator => do
      let ts := tokens.tail
      let (rhs, ts) ← parse_primary_expression fuel ts
      let (rhs, ts) ←
        match helper.parse_operator ts.head? with
        | .ok next_operator =>
          if BinaryOperator.gt next_operator.inner operator.inner then
            parse_binary_expression_rhs fuel rhs (some next_operator) ts
          else .ok (rhs, ts)
        | .error _ => .ok (rhs, ts)
      parse_binary_expression_rhs fuel (.BinaryExpression lhs operator rhs) min_operator ts

end

/-- Rust `variable::parse_data_type` (`src/src/parser/variable.rs` lines 18–54):
`ptr` recursion, else an identifier resolved against the basic types. -/
def parse_data_type : Nat → Tokens → Except ParserError (PositionContainer DataType × Tokens)
  | 0, _ => .error .OutOfFuel
  | fuel + 1, tokens =>
    match tokens.head? with
    | some ⟨position, .Pointer⟩ => do
      let (type_to_point_to, ts) ← parse_data_type fuel tokens.tail
      .ok (⟨position, .Pointer type_to_point_to⟩, ts)
    | some ⟨position, .Identifier type_str⟩ =>
      match BasicDataType.tryFrom type_str with
      | .ok basic_data_type => .ok (⟨position, .Basic basic_data_type⟩, tokens.tail)
      | .error _ => .ok (⟨position, .Struct type_str⟩, tokens.tail)
    | other => .error (.ExpectedToken (.Identifier "") other)

/-- Rust `variable::parse_variable_declaration` (`src/src/parser/variable.rs`
lines 8–16): `var name : type = value` where the initializer is parsed with
`parse_primary_expression`. -/
def parse_variable_declaration (fuel : Nat) (tokens : Tokens) :
    Except ParserError (VariableDeclaration × Tokens) := do
  let _ ← helper.parse_variable_declaration tokens.head?
  let name ← helper.parse_identifier tokens.tail.head?
  let _ ← helper.parse_colon tokens.tail.tail.head?
  let (data_type, ts) ← parse_data_type fuel tokens.tail.tail.tail
  let _ ← helper.parse_equal ts.head?
  let (value, ts) ← parse_primary_expression fuel ts.tail
  .ok (⟨name, data_type, value⟩, ts)

mutual

/-- Rust `instruction::parse_instruction` (`src/src/parser/instruction.rs`):
dispatch on the peeked token. The snapshot's `TokenKind::Number(_)` arm
corresponds to the `Int` and `Float` literal tokens of the current token
alphabet. There is no arm for `Return`; any unhandled token yields
`IllegalToken {context: "instruction"}`. -/
def parse_instruction : Nat → Tokens → Except ParserError (Instruction × Tokens)
  | 0, _ => .error .OutOfFuel
  | fuel + 1, tokens =>
    match tokens.head? with
    | some ⟨_, .Identifier _⟩ => parse_identifier_instruction fuel tokens
    | some ⟨_, .Int _⟩ => do
      let (n, ts) ← parse_int tokens
      .ok (.Expression (.Number n), ts)
    | some ⟨_, .Float _⟩ => do
      let (n, ts) ← parse_float tokens
      .ok (.Expression (.Number n), ts)
    | some ⟨_, .OpeningParentheses⟩ => do
      let (e, ts) ← parse_parentheses fuel tokens
      .ok (.Expression e, ts)
    | some ⟨_, .If⟩ => do
      let (ie, ts) ← parse_if_else fuel tokens
      .ok (.IfElse ie, ts)
    | some ⟨_, .While⟩ => do
      let (w, ts) ← parse_while_loop fuel tokens
      .ok (.WhileLoop w, ts)
    | some ⟨_, .Var⟩ => do
      let (d, ts) ← parse_variable_declaration fuel tokens
      .ok (.Statement (.VariableDeclaration d), ts)
    | other => .error (.IllegalToken other "instruction")

/-- Rust `instruction::parse_identifier_instruction`: a call, an assignment
(whose value uses the full `parse_binary_expression`), or a variable. -/
def parse_identifier_instruction : Nat → Tokens → Except ParserError (Instruction × Tokens)
  | 0, _ => .error .OutOfFuel
  | fuel + 1, tokens => do
    let identifier ← helper.parse_identifier tokens.head?
    let ts := tokens.tail
    match ts.head? with
    | some ⟨_, .OpeningParentheses⟩ => do
      let (e, ts) ← parse_function_call fuel ts identifier
      .ok (.Expression e, ts)
    | some ⟨_, .Equal⟩ => do
      let (value, ts) ← parse_binary_expression fuel ts.tail
      .ok (.Statement (.VariableAssignment ⟨identifier, value⟩), ts)
    | _ => .ok (.Expression (.Variable identifier), ts)

/-- Rust `instruction::parse_if_else`: `if condition block [else block]`. -/
def parse_if_else : Nat → Tokens → Except ParserError (IfElse × Tokens)
  | 0, _ => .error .OutOfFuel
  | fuel + 1, tokens => do
    let _ ← helper.parse_if tokens.head?
    let (condition, ts) ← parse_binary_expression fuel tokens.tail
    let (if_true, ts) ← parse_block fuel ts
    match ts.head? with
    | some ⟨_, .Else⟩ => do
      let (if_false, ts) ← parse_block fuel ts.tail
      .ok (.mk condition if_true if_false, ts)
    | _ => .ok (.mk condition if_true [], ts)

/-- Rust `instruction::parse_while_loop`: `while condition block`. -/
def parse_while_loop : Nat → Tokens → Except ParserError (WhileLoop × Tokens)
  | 0, _ => .error .OutOfFuel
  | fuel + 1, tokens => do
    let _ ← helper.parse_while tokens.head?
    let (condition, ts) ← parse_binary_expression fuel tokens.tail
    let (body, ts) ← parse_block fuel ts
    .ok (.mk condition body, ts)

/-- Rust `block::parse_block` (`src/src/parser/block.rs`): `{`, instructions
until `}` (or until the tokens run out, which silently ends the block). -/
def parse_block : Nat → Tokens → Except ParserError (List Instruction × Tokens)
  | 0, _ => .error .OutOfFuel
  | fuel + 1, tokens => do
    let _ ← helper.parse_opening_curly_parenthesis tokens.head?
    parse_block_loop fuel tokens.tail []

/-- The `while let Some(token) = tokens.peek()` loop of `block::parse_block`. -/
def parse_block_loop (fuel : Nat) (tokens : Tokens) (block : List Instruction) :
    Except ParserError (List Instruction × Tokens) :=
  match fuel with
  | 0 => .error .OutOfFuel
  | fuel + 1 =>
    match tokens.head? with
    | none => .ok (block, tokens)
    | some token =>
      if token.inner = .ClosingCurlyBraces then .ok (block, tokens.tail)
      else do
        let (instruction, ts) ← parse_instruction fuel tokens
        parse_block_loop fuel ts (block ++ [instruction])

end

/-- Rust `function::parse_function_prototype_return_type`
(`src/src/parser/function.rs` lines 76–96). -/
def parse_function_prototype_return_type (fuel : Nat) (tokens : Tokens) :
    Except ParserError (Option (PositionContainer DataType) × Tokens) :=
  match tokens.head? with
  | some ⟨_, .OpeningCurlyBraces⟩ => .ok (none, tokens)
  | some ⟨_, .Colon⟩ => do
    let (data_type, ts) ← parse_data_type fuel tokens.tail
    .ok (some data_type, ts)
  | _ => .ok (none, tokens)

/-- The collection loop of `function::parse_function_argument_list`. -/
def parse_function_argument_list_loop (fuel : Nat) (tokens : Tokens)
    (arguments : List FunctionArgument) :
    Except ParserError (List FunctionArgument × Tokens) :=
  match fuel with
  | 0 => .error .OutOfFuel
  | fuel + 1 => do
    let name ← helper.parse_identifier tokens.head?
    let _ ← helper.parse_colon tokens.tail.head?
    let (data_type, ts) ← parse_data_type fuel tokens.tail.tail
    let arguments := arguments ++ [FunctionArgument.mk name data_type]
    match ts.head? with
    | some ⟨_, .Comma⟩ => parse_function_argument_list_loop fuel ts.tail arguments
    | _ => do
      let _ ← helper.parse_closing_parenthesis ts.head?
      .ok (arguments, ts.tail)

/-- Rust `function::parse_function_argument_list` (`src/src/parser/function.rs`
lines 40–74). -/
def parse_function_argument_list (fuel : Nat) (tokens : Tokens) :
    Except ParserError (List FunctionArgument × Tokens) := do
  let _ ← helper.parse_opening_parenthesis tokens.head?
  let ts := tokens.tail
  match ts.head? with
  | some ⟨_, .ClosingParentheses⟩ => .ok ([], ts.tail)
  | _ => parse_function_argument_list_loop fuel ts []

/-- Rust `function::parse_function_prototype`. -/
def parse_function_prototype (fuel : Nat) (tokens : Tokens) :
    Except ParserError (FunctionPrototype × Tokens) := do
  let name ← helper.parse_identifier tokens.head?
  let (args, ts) ← parse_function_argument_list fuel tokens.tail
  let (return_type, ts) ← parse_function_prototype_return_type fuel ts
  .ok (⟨name, args, return_type⟩, ts)

/-- Rust `function::parse_function_definition` (`src/src/parser/function.rs`
lines 11–18): consume the `def` token, then prototype and body block. -/
def parse_function_definition (fuel : Nat) (tokens : Tokens) :
    Except ParserError (FunctionDefinition × Tokens) := do
  let ts := tokens.tail
  let (prototype, ts) ← parse_function_prototype fuel ts
  let (body, ts) ← parse_block fuel ts
  .ok (⟨prototype, body⟩, ts)

/-! ## String-keyed maps

`HashMap<String, V>` is modelled as an association list whose `insert`
replaces any previous binding of the key and whose `remove` erases the
key's binding, matching `HashMap::insert` / `HashMap::remove` / `HashMap::get`
extensionally. -/

/-- Association-list model of `HashMap<String, α>`. -/
abbrev SMap (α : Type) : Type := List (String × α)

/-- The empty map (`HashMap::new`). -/
def SMap.empty {α : Type} : SMap α := []

/-- Rust `HashMap::get`. -/
def SMap.lookup {α : Type} : SMap α → String → Option α
  | [], _ => none
  | (k, v) :: rest, key => if k = key then some v else SMap.lookup rest key

/-- Remove every binding of `key` (`HashMap::remove`; the list never holds
two bindings of one key, since `insert` erases first). -/
def SMap.remove {α : Type} : SMap α → String → SMap α
  | [], _ => []
  | (k, v) :: rest, key =>
    if k = key then SMap.remove rest key else (k, v) :: SMap.remove rest key

/-- Rust `HashMap::insert`: bind `key` to `v`, replacing any previous binding. -/
def SMap.insert {α : Type} (m : SMap α) (key : String) (v : α) : SMap α :=
  (key, v) :: m.remove key

/-! ## Global symbol scan (`src/src/semantic_analyzer/symbol_table.rs`) -/

/-- The symbol table of globally declared functions and structs. -/
structure SymbolTable where
  functions : SMap FunctionPrototype
  structs : SMap Struct

/-- Rust `SymbolTable::default`. -/
def SymbolTable.default : SymbolTable := ⟨SMap.empty, SMap.empty⟩

/-- Rust `SymbolTable::function`: insert a prototype keyed by its name. -/
def SymbolTable.function (tbl : SymbolTable) (function_prototype : FunctionPrototype) :
    SymbolTable :=
  { tbl with
    functions := tbl.functions.insert function_prototype.name.inner function_prototype }

/-- Rust `SymbolTable::struct_`: insert a struct keyed by its name. -/
def SymbolTable.struct_ (tbl : SymbolTable) (s : Struct) : SymbolTable :=
  { tbl with structs := tbl.structs.insert s.name.inner s }

/-- Rust `SymbolTable::ast_node`: scan one node. The error type is Rust's
`Infallible`, modelled by `Empty`. -/
def SymbolTable.ast_node (tbl : SymbolTable) : Node → Except Empty SymbolTable
  | .Function function => .ok (tbl.function function.prototype)
  | .Struct struct_val => .ok (tbl.struct_ struct_val)
  | .FunctionPrototype function_prototype => .ok (tbl.function function_prototype)

/-- The `for ast_node in ast_nodes` loop of `global_symbol_scan`. -/
def SymbolTable.scan_nodes : SymbolTable → List Node → Except Empty SymbolTable
  | tbl, [] => .ok tbl
  | tbl, n :: rest => do
    let tbl ← tbl.ast_node n
    SymbolTable.scan_nodes tbl rest

/-- Rust `SymbolTable::global_symbol_scan` (`src/src/semantic_analyzer/symbol_table.rs`
lines 40–46): fold `ast_node` over the nodes starting from the default table. -/
def SymbolTable.global_symbol_scan (ast_nodes : List Node) : Except Empty SymbolTable :=
  SymbolTable.scan_nodes SymbolTable.default ast_nodes

/-! ## Type checker (`src/src/semantic_analyzer/type_check.rs`) -/

/-- An in-scope variable (`src/src/semantic_analyzer/variable.rs`). Its Rust
`Hash`/`PartialEq` use only the name. -/
structure Variable where
  name : PositionContainer String
  type_ : DataType
deriving DecidableEq

/-- A call-stack frame: `HashSet<Arc<Variable>>`, whose element equality is
by variable name; modelled as a list with name-keyed set insertion. -/
abbrev CallStackFrame : Type := List Variable

/-- The empty frame (`CallStackFrame::new`). -/
def CallStackFrame.empty : CallStackFrame := []

/-- Rust `HashSet::insert`: keep the existing element when one with the same name
is present (Rust `Variable` equality is name equality). -/
def CallStackFrame.insert (frame : CallStackFrame) (var : Variable) : CallStackFrame :=
  if frame.any (fun v => v.name.inner = var.name.inner) then frame else var :: frame

/-- A function call payload as carried by semantic errors
(`src/src/ast/expression/function_call.rs`). -/
structure FunctionCall where
  name : PositionContainer String
  params : List Expression

/-- The semantic analyzer's error type
(`src/src/semantic_analyzer/error.rs`). -/
inductive SemanticError where
  | Redeclaration (previous_declaration : Variable) (new_declaration : Variable)
  | UndeclaredVariable (name : PositionContainer String)
  | TypeMismatch (expected : DataType) (position : SourcePositionRange) (actual : DataType)
  | UndefinedFunctionCall (function_call : FunctionCall)
  | ArgumentCountMismatch (expected : Nat) (actual : Nat) (function_call : FunctionCall)

/-- The embedding's error channel for the type checker: a semantic error, or
a Rust panic (`todo!()` / `unwrap()` on `None`), which `Result` cannot carry
in the source but which the embedding must distinguish from success. -/
inductive TcError where
  | sem (e : SemanticError)
  | rustPanic (msg : String)

/-- The type checker state (`TypeChecker` in
`src/src/semantic_analyzer/type_check.rs`): the symbol table, the in-scope
variables map, and the call stack. The Rust `Vec` grows at the end; the list
here keeps the top frame at the head. -/
structure TypeChecker where
  symbol_table : SymbolTable
  variables_ : SMap Variable
  call_stack : List CallStackFrame

/-- Rust `Expression::source_position` (`src/src/ast/expression/mod.rs` together
with `BinaryExpression::source_position`). -/
def Expression.source_position : Expression → SourcePositionRange
  | .BinaryExpression lhs _ rhs =>
    let position := lhs.source_position
    { position with
      position := { position.position with stop := rhs.source_position.position.stop } }
  | .FunctionCall name _ => name.position
  | .Number n => n.position
  | .Variable v => v.position

/-- Rust `TypeChecker::add_variable` (`type_check.rs` lines 186–190): insert into
`variables` and into the top call-stack frame (`last_mut().unwrap()`). -/
def TypeChecker.add_variable (tc : TypeChecker) (var : Variable) : Except TcError TypeChecker :=
  match tc.call_stack with
  | [] => .error (.rustPanic "call_stack.last_mut().unwrap() on empty call stack")
  | frame :: rest =>
    .ok { tc with
      variables_ := tc.variables_.insert var.name.inner var,
      call_stack := frame.insert var :: rest }

/-- Rust `TypeChecker::drop_call_stack_frame` (`type_check.rs` lines 193–198):
pop the top frame and remove each of its variables' names from `variables`. -/
def TypeChecker.drop_call_stack_frame (tc : TypeChecker) : Except TcError TypeChecker :=
  match tc.call_stack with
  | [] => .error (.rustPanic "call_stack.pop().unwrap() on empty call stack")
  | frame :: rest =>
    .ok { tc with
      call_stack := rest,
      variables_ := frame.foldl (fun m v => m.remove v.name.inner) tc.variables_ }

/-- Rust `TypeChecker::number_type_inference`. -/
def TypeChecker.number_type_inference (number : Number) : Except TcError DataType :=
  match number.inner with
  | .Int _ => .ok (.Basic .Int)
  | .Float _ => .ok (.Basic .Float)

/-- Rust `TypeChecker::infer_variable_type`: look the name up in `variables`. -/
def TypeChecker.infer_variable_type (tc : TypeChecker) (v : PositionContainer String) :
    Except TcError DataType :=
  match tc.variables_.lookup v.inner with
  | some var => .ok var.type_
  | none => .error (.sem (.UndeclaredVariable v))

/-- Rust `TypeChecker::infer_function_call_type`: the callee's declared return
type; `todo!()` (a panic) when the callee has none. -/
def TypeChecker.infer_function_call_type (tc : TypeChecker) (name : PositionContainer String)
    (params : List Expression) : Except TcError DataType :=
  match tc.symbol_table.functions.lookup name.inner with
  | some function =>
    match function.return_type with
    | some return_type => .ok return_type.inner
    | none => .error (.rustPanic "Function without return value not supported yet")
  | none => .error (.sem (.UndefinedFunctionCall ⟨name, params⟩))

/-- Rust `TypeChecker::infer_expression_type` (`type_check.rs` lines 271–281);
the `BinaryExpression` arm is `infer_binary_expression_type` (lines 285–296)
inlined: infer both sides, require them equal, return the common type. -/
def TypeChecker.infer_expression_type (tc : TypeChecker) : Expression → Except TcError DataType
  | .BinaryExpression lhs op rhs => do
    let l ← tc.infer_expression_type lhs
    let r ← tc.infer_expression_type rhs
    if l ≠ r then .error (.sem (.TypeMismatch l op.position r))
    else .ok l
  | .FunctionCall name params => tc.infer_function_call_type name params
  | .Number n => TypeChecker.number_type_inference n
  | .Variable v => tc.infer_variable_type v

/-- The `iter::zip(params, args)` loop of `TypeChecker::function_call`:
infer each param's type and require it to equal the declared argument type. -/
def TypeChecker.check_params (tc : TypeChecker) :
    List Expression → List FunctionArgument → Except TcError Unit
  | [], _ => .ok ()
  | _, [] => .ok ()
  | param :: params, arg :: args => do
    let param_type ← tc.infer_expression_type param
    if param_type ≠ arg.data_type.inner then
      .error (.sem (.TypeMismatch arg.data_type.inner param.source_position param_type))
    else tc.check_params params args

/-- Rust `TypeChecker::function_call` (`type_check.rs` lines 105–132): unknown
callee → `UndefinedFunctionCall`; length mismatch → `ArgumentCountMismatch
{expected: args.len(), actual: params.len()}`; then the per-param type loop. -/
def TypeChecker.function_call (tc : TypeChecker) (name : PositionContainer String)
    (params : List Expression) : Except TcError Unit :=
  match tc.symbol_table.functions.lookup name.inner with
  | none => .error (.sem (.UndefinedFunctionCall ⟨name, params⟩))
  | some function_definition =>
    if params.length ≠ function_definition.args.length then
      .error (.sem (.ArgumentCountMismatch function_definition.args.length params.length
        ⟨name, params⟩))
    else tc.check_params params function_definition.args

/-- Rust `TypeChecker::expression` (`type_check.rs` lines 88–95); the
`BinaryExpression` arm is `binary_expression` (lines 98–102) inlined:
recurse into both sides without comparing their types. `Number` and
`Variable` are accepted unconditionally. -/
def TypeChecker.expression (tc : TypeChecker) : Expression → Except TcError Unit
  | .BinaryExpression lhs _ rhs => do
    let _ ← tc.expression lhs
    tc.expression rhs
  | .FunctionCall name params => tc.function_call name params
  | .Number _ => .ok ()
  | .Variable _ => .ok ()

/-- Rust `TypeChecker::variable_declaration` (`type_check.rs` lines 146–183). -/
def TypeChecker.variable_declaration (tc : TypeChecker) (vd : VariableDeclaration) :
    Except TcError TypeChecker := do
  let variable_ : Variable := ⟨vd.name, vd.data_type.inner⟩
  let inferred_type ← tc.infer_expression_type vd.value
  if inferred_type ≠ variable_.type_ then
    .error (.sem (.TypeMismatch variable_.type_ vd.name.position inferred_type))
  else
    match tc.variables_.lookup variable_.name.inner with
    | some previous_declaration =>
      .error (.sem (.Redeclaration previous_declaration variable_))
    | none => do
      let tc ← tc.add_variable variable_
      let _ ← tc.expression vd.value
      .ok tc

/-- Rust `TypeChecker::variable_assignment` (`type_check.rs` lines 201–223):
infer the value's type, require the variable to be declared with the same
type, then `add_variable` the assigned variable (into the *current* frame)
and re-check the value expression. -/
def TypeChecker.variable_assignment (tc : TypeChecker) (va : VariableAssignment) :
    Except TcError TypeChecker := do
  let expression_type ← tc.infer_expression_type va.value
  let var : Variable := ⟨va.name, expression_type⟩
  match tc.variables_.lookup var.name.inner with
  | none => .error (.sem (.UndeclaredVariable var.name))
  | some variable_type =>
    if expression_type ≠ variable_type.type_ then
      .error (.sem (.TypeMismatch variable_type.type_ va.name.position expression_type))
    else do
      let tc ← tc.add_variable var
      let _ ← tc.expression va.value
      .ok tc

/-- Rust `TypeChecker::statement`. -/
def TypeChecker.statement (tc : TypeChecker) : Statement → Except TcError TypeChecker
  | .VariableDeclaration d => tc.variable_declaration d
  | .VariableAssignment a => tc.variable_assignment a

mutual

/-- Rust `TypeChecker::instruction` (`type_check.rs` lines 78–85). -/
def TypeChecker.instruction (tc : TypeChecker) : Instruction → Except TcError TypeChecker
  | .Expression e => do
    let _ ← tc.expression e
    .ok tc
  | .Statement s => tc.statement s
  | .IfElse ie => tc.if_else ie
  | .WhileLoop w => tc.while_loop w

/-- Rust `TypeChecker::if_else` (`type_check.rs` lines 234–255): check the
condition, then each block inside its own pushed/popped frame; an empty
if-false block is skipped. -/
def TypeChecker.if_else (tc : TypeChecker) : IfElse → Except TcError TypeChecker
  | .mk condition if_true if_false => do
    let _ ← tc.expression condition
    let tc := { tc with call_stack := CallStackFrame.empty :: tc.call_stack }
    let tc ← tc.check_block if_true
    let tc ← tc.drop_call_stack_frame
    if if_false.isEmpty then .ok tc
    else do
      let tc := { tc with call_stack := CallStackFrame.empty :: tc.call_stack }
      let tc ← tc.check_block if_false
      tc.drop_call_stack_frame

/-- Rust `TypeChecker::while_loop` (`type_check.rs` lines 258–268). -/
def TypeChecker.while_loop (tc : TypeChecker) : WhileLoop → Except TcError TypeChecker
  | .mk condition body => do
    let _ ← tc.expression condition
    let tc := { tc with call_stack := CallStackFrame.empty :: tc.call_stack }
    let tc ← tc.check_block body
    tc.drop_call_stack_frame

/-- The `for instruction in …` loops over a block's instructions. -/
def TypeChecker.check_block (tc : TypeChecker) : List Instruction → Except TcError TypeChecker
  | [] => .ok tc
  | i :: rest => do
    let tc ← tc.instruction i
    tc.check_block rest

end

/-- The `for arg in &function.prototype.args` loop of
`TypeChecker::function`: seed the new frame with the declared arguments. -/
def TypeChecker.add_args (tc : TypeChecker) :
    List FunctionArgument → Except TcError TypeChecker
  | [] => .ok tc
  | arg :: rest => do
    let tc ← tc.add_variable ⟨arg.name, arg.data_type.inner⟩
    tc.add_args rest

/-- Rust `TypeChecker::function` (`type_check.rs` lines 58–75): push a frame,
seed it with the arguments, check the body, drop the frame. -/
def TypeChecker.function (tc : TypeChecker) (function : FunctionDefinition) :
    Except TcError TypeChecker := do
  let tc := { tc with call_stack := CallStackFrame.empty :: tc.call_stack }
  let tc ← tc.add_args function.prototype.args
  let tc ← tc.check_block function.body
  tc.drop_call_stack_frame

/-- Rust `TypeChecker::ast_node`. -/
def TypeChecker.ast_node (tc : TypeChecker) : Node → Except TcError TypeChecker
  | .Function function => tc.function function
  | .Struct _ => .ok tc
  | .FunctionPrototype _ => .ok tc

/-- The `for ast_node in ast_nodes` loop of `TypeChecker::type_check`. -/
def TypeChecker.run_nodes (tc : TypeChecker) : List Node → Except TcError TypeChecker
  | [] => .ok tc
  | n :: rest => do
    let tc ← tc.ast_node n
    tc.run_nodes rest

/-- Rust `TypeChecker::type_check` (`type_check.rs` lines 32–44): fresh state,
one global frame, then check every node. -/
def TypeChecker.type_check (symbol_table : SymbolTable) (ast_nodes : List Node) :
    Except TcError Unit := do
  let tc : TypeChecker := ⟨symbol_table, SMap.empty, []⟩
  let tc := { tc with call_stack := CallStackFrame.empty :: tc.call_stack }
  let _ ← tc.run_nodes ast_nodes
  .ok ()

/-! ## Lexer keyword table

The current-generation lexer — the one producing the `TokenKind` alphabet of
`src/src/token.rs` — is not present in the sources; only older lexer
snapshots with a different token alphabet are, while `src/src/token.rs` and
the parser (its consumer) require `Def`, `Struct`, `Var`, `Pointer`,
`While` and `Return` keyword tokens. -/

/-- Modelled from the spec: the missing current-generation
`Lexer::parse_string`, which maps an identifier candidate against the fixed
keyword table `def → Def`, `extern → Extern`, `struct → Struct`,
`var → Var`, `ptr → Pointer`, `if → If`, `else → Else`, `while → While`,
`return → Return`, `bitor → BitOr`, `bitand → BitAnd`, `mod → Modulus`,
and any other string to `Identifier(string)` (spec §4.2). -/
def Lexer.parse_string (string : String) : TokenKind :=
  if string = "def" then .Def
  else if string = "extern" then .Extern
  else if string = "struct" then .Struct
  else if string = "var" then .Var
  else if string = "ptr" then .Pointer
  else if string = "if" then .If
  else if string = "else" then .Else
  else if string = "while" then .While
  else if string = "return" then .Return
  else if string = "bitor" then .BitOr
  else if string = "bitand" then .BitAnd
  else if string = "mod" then .Modulus
  else .Identifier string

/-- The spec's twelve keyword spellings. -/
def Lexer.keywords : List String :=
  ["def", "extern", "struct", "var", "ptr", "if", "else", "while", "return",
   "bitor", "bitand", "mod"]

/-! ## Comment reading in the lexer snapshot (`src/src/lexer/mod.rs`)

`Lexer::read_comment` (lines 231–265) of the lexer snapshot under
`src/src/lexer/mod.rs`. Its iterator `Peekable<Enumerate<LetterIter>>` is
modelled as a list of `(position, char)` pairs; the `loop` becomes
fuel-indexed recursion, one fuel step per iteration, where exhausted fuel
(`outOfFuel`) means the loop has not terminated within that many steps. -/

/-- A partial outcome of a lexer helper: a result, a Rust panic, or fuel
exhaustion (the embedding's marker for a loop that has not finished). -/
inductive LexStep (α : Type) where
  | done (a : α)
  | panicked (msg : String)
  | outOfFuel
deriving DecidableEq

/-- The enumerated character stream `Peekable<Enumerate<LetterIter>>`. -/
abbrev Letters := List (Nat × Char)

/-- Rust `is_comment`: `#` starts a comment line. -/
def Lexer.is_comment (symbol : Char) : Bool := symbol = '#'

/-- Rust `is_skip_letter`: whitespace, tabulator, carriage return. -/
def Lexer.is_skip_letter (letter : Char) : Bool :=
  (['\r', ' ', '\t'] : List Char).contains letter

/-- Rust `Lexer::skip_ignore_letters` via `iter_advance_while`: drop leading
skip letters. -/
def Lexer.skip_ignore_letters : Letters → Letters
  | [] => []
  | (p, c) :: rest =>
    if Lexer.is_skip_letter c then Lexer.skip_ignore_letters rest else (p, c) :: rest

/-- Rust `Lexer::on_ignore_letter`: true when the next letter is skippable or the
stream is drained. -/
def Lexer.on_ignore_letter (letters : Letters) : Bool :=
  match letters.head? with
  | none => true
  | some (_, c) => Lexer.is_skip_letter c

/-- Rust `Lexer::goto_normal_letter`. -/
def Lexer.goto_normal_letter (letters : Letters) : Letters :=
  if !Lexer.on_ignore_letter letters then letters
  else Lexer.skip_ignore_letters letters

/-- The `loop` of `Lexer::read_comment` (`src/src/lexer/mod.rs` lines
239–260), one fuel step per iteration. On a newline: consume it, skip
whitespace, continue (pushing `\n`) only when the next line is again a
comment. On any other letter: push it onto the comment and update
`last_position` — the source does not advance the iterator in this arm.
On a drained stream: stop. -/
def Lexer.read_comment_loop (fuel : Nat) (letters : Letters) (comment : String)
    (last_position : Nat) : LexStep (String × Letters × Nat) :=
  match fuel with
  | 0 => .outOfFuel
  | fuel + 1 =>
    match letters.head? with
    | some (_, '\n') =>
      let letters := Lexer.goto_normal_letter letters.tail
      match letters.head? with
      | some (_, c) =>
        if Lexer.is_comment c then
          Lexer.read_comment_loop fuel letters (comment.push '\n') last_position
        else .done (comment, letters, last_position)
      | none => .done (comment, letters, last_position)
    | some (position, letter) =>
      Lexer.read_comment_loop fuel letters (comment.push letter) position
    | none => .done (comment, letters, last_position)

/-- Rust `Lexer::read_comment` (`src/src/lexer/mod.rs` lines 231–265): consume the
introductory `#` (`next().unwrap()`), then run the reading loop; the result
carries the comment text, the remaining letters and the last position. -/
def Lexer.read_comment (fuel : Nat) (letters : Letters) : LexStep (String × Letters × Nat) :=
  match letters with
  | [] => .panicked "letters.next().unwrap() on drained input"
  | (first_position, _) :: rest =>
    Lexer.read_comment_loop fuel rest "" first_position

/-! ## Observers and concrete example inputs

`ExprShape` is a position- and argument-erased view of expressions used to
state tree-structure results independently of position payloads; it is an
observation device of this development, not part of the embedded program. -/

/-- The operator/leaf skeleton of an expression: positions are erased, and a
function call keeps only its callee name. -/
inductive ExprShape where
  | bin (op : BinaryOperator) (lhs rhs : ExprShape)
  | call (name : String)
  | num (k : NumberKind)
  | var (name : String)
deriving DecidableEq

/-- Erase positions (and call arguments) from an expression. -/
def Expression.shape : Expression → ExprShape
  | .BinaryExpression lhs op rhs => .bin op.inner lhs.shape rhs.shape
  | .FunctionCall name _ => .call name.inner
  | .Number n => .num n.inner
  | .Variable v => .var v.inner

/-- A one-character span at offset `o` on line 1 of an example source file;
the example theorems below need concrete spans, and nothing in the embedded
code inspects them. -/
def exPos (o : Nat) : SourcePositionRange :=
  ⟨⟨"example.ftl", ""⟩, ⟨⟨1, o + 1, o⟩, ⟨1, o + 1, o⟩⟩⟩

/-- A token at offset `o`. -/
def exTok (o : Nat) (k : TokenKind) : Token := ⟨exPos o, k⟩

/-- The token sequence of `a + b * c < d`. -/
def exC2Tokens : Tokens :=
  [exTok 0 (.Identifier "a"), exTok 2 .Plus, exTok 4 (.Identifier "b"), exTok 6 .Star,
   exTok 8 (.Identifier "c"), exTok 10 .Less, exTok 12 (.Identifier "d")]

/-- The tree the parser actually produces for `a + b * c < d`:
`Add(a, Less(Multiply(b, c), d))`. -/
def exC2Result : Expression :=
  .BinaryExpression (.Variable ⟨exPos 0, "a"⟩) ⟨exPos 2, .Add⟩
    (.BinaryExpression
      (.BinaryExpression (.Variable ⟨exPos 4, "b"⟩) ⟨exPos 6, .Multiply⟩
        (.Variable ⟨exPos 8, "c"⟩))
      ⟨exPos 10, .Less⟩ (.Variable ⟨exPos 12, "d"⟩))

/-- The token sequence of
`def main(): int { var x: int = 1 + 2 * 3 return x }`. -/
def exC3Tokens : Tokens :=
  [exTok 0 .Def, exTok 4 (.Identifier "main"), exTok 8 .OpeningParentheses,
   exTok 9 .ClosingParentheses, exTok 10 .Colon, exTok 12 (.Identifier "int"),
   exTok 16 .OpeningCurlyBraces, exTok 18 .Var, exTok 22 (.Identifier "x"),
   exTok 23 .Colon, exTok 25 (.Identifier "int"), exTok 29 .Equal,
   exTok 31 (.Int 1), exTok 33 .Plus, exTok 35 (.Int 2), exTok 37 .Star,
   exTok 39 (.Int 3), exTok 41 .Return, exTok 48 (.Identifier "x"),
   exTok 50 .ClosingCurlyBraces]

/-- What `parse_variable_declaration` makes of `var x: int = 1 + 2 * 3 …`:
the initializer is the primary expression `1` only. -/
def exC3Decl : VariableDeclaration :=
  ⟨⟨exPos 22, "x"⟩, ⟨exPos 25, .Basic .Int⟩, .Number ⟨exPos 31, .Int 1⟩⟩

/-- The variable `x: int` declared at offset 4 of the C4 example. -/
def exC4Var : Variable := ⟨⟨exPos 4, "x"⟩, .Basic .Int⟩

/-- The checker state inside `main` right after `var x: int = 1`: `x` is in
scope, recorded in the function's frame; below it the global frame. -/
def exC4State : TypeChecker :=
  ⟨SymbolTable.default, [("x", exC4Var)], [[exC4Var], []]⟩

/-- The instruction `if 1 < 2 { x = 2 }`. -/
def exC4IfElse : IfElse :=
  .mk (.BinaryExpression (.Number ⟨exPos 10, .Int 1⟩) ⟨exPos 12, .Less⟩
        (.Number ⟨exPos 14, .Int 2⟩))
    [.Statement (.VariableAssignment ⟨⟨exPos 18, "x"⟩, .Number ⟨exPos 22, .Int 2⟩⟩)]
    []

/-- The checker state after `TypeChecker::if_else` on the C4 example: the
call stack is restored, but `x` has vanished from the variables map. -/
def exC4Result : TypeChecker :=
  ⟨SymbolTable.default, [], [[exC4Var], []]⟩

/-- Rust `var x: int = 1`, the declaration opening the C4 example's body. -/
def exC4Decl : VariableDeclaration :=
  ⟨⟨exPos 4, "x"⟩, ⟨exPos 7, .Basic .Int⟩, .Number ⟨exPos 11, .Int 1⟩⟩

/-- Body `{ var x: int = 1  if 1 < 2 { x = 2 } }`. -/
def exC4Body1 : Block :=
  [.Statement (.VariableDeclaration exC4Decl), .IfElse exC4IfElse]

/-- Body `{ var x: int = 1  if 1 < 2 { x = 2 }  x = 3 }`. -/
def exC4Body2 : Block :=
  exC4Body1 ++ [.Statement (.VariableAssignment ⟨⟨exPos 30, "x"⟩, .Number ⟨exPos 34, .Int 3⟩⟩)]

/-- Rust `def main(): int { body }` as a top-level node. -/
def exC4Fn (body : Block) : Node :=
  .Function ⟨⟨⟨exPos 0, "main"⟩, [], some ⟨exPos 2, .Basic .Int⟩⟩, body⟩

/-- Prototype of `def f(a: int): int`. -/
def exC8Proto : FunctionPrototype :=
  ⟨⟨exPos 4, "f"⟩, [⟨⟨exPos 6, "a"⟩, ⟨exPos 9, .Basic .Int⟩⟩], some ⟨exPos 15, .Basic .Int⟩⟩

/-- A checker state whose symbol table declares `f(a: int): int`. -/
def exC8Tc : TypeChecker :=
  ⟨⟨SMap.empty.insert "f" exC8Proto, SMap.empty⟩, SMap.empty, [[]]⟩

/-- The callee name of the call `f(1, 2)`. -/
def exC8Name : PositionContainer String := ⟨exPos 40, "f"⟩

/-- The two supplied params of `f(1, 2)`. -/
def exC8Params : List Expression :=
  [.Number ⟨exPos 42, .Int 1⟩, .Number ⟨exPos 45, .Int 2⟩]

/-- First of two prototypes named `f` (C9 duplicate example). -/
def exC9P1 : FunctionPrototype := ⟨⟨exPos 0, "f"⟩, [], none⟩

/-- Second of two prototypes named `f` (C9 duplicate example). -/
def exC9P2 : FunctionPrototype :=
  ⟨⟨exPos 10, "f"⟩, [⟨⟨exPos 12, "a"⟩, ⟨exPos 14, .Basic .Int⟩⟩], none⟩

/-- Two extern declarations sharing the name `f`. -/
def exC9Nodes : List Node := [.FunctionPrototype exC9P1, .FunctionPrototype exC9P2]

/-- The table the scan builds from `exC9Nodes`: the later `f` wins. -/
def exC9Tbl : SymbolTable := ⟨[("f", exC9P2)], []⟩

/-- The bare instruction expression `1 + 2.5`. -/
def exC10Expr : Expression :=
  .BinaryExpression (.Number ⟨exPos 0, .Int 1⟩) ⟨exPos 2, .Add⟩
    (.Number ⟨exPos 4, .Float (5 / 2)⟩)

/-- A checker state with an empty symbol table and one (global) frame. -/
def exC10Tc : TypeChecker := ⟨SymbolTable.default, SMap.empty, [[]]⟩

/-- The expression `1 =/= 2` (a `NotEqual` binary expression). -/
def exC1Expr : Expression :=
  .BinaryExpression (.Number ⟨exPos 0, .Int 1⟩) ⟨exPos 2, .NotEqual⟩
    (.Number ⟨exPos 6, .Int 2⟩)

/-- Rust `Node::proto`: the prototype a top-level node contributes to the
functions map, if any (observer used to state the symbol-scan claim). -/
def Node.proto : Node → Option FTL.FunctionPrototype
  | .Function f => some f.prototype
  | .FunctionPrototype p => some p
  | .Struct _ => none

/-- The struct a top-level node contributes to the structs map, if any. -/
def Node.structDef : Node → Option FTL.Struct
  | .Struct s => some s
  | _ => none

/-- The pure action of `SymbolTable::ast_node` on the table (its `Result` is
infallible); used to reason about the scan fold. -/
def SymbolTable.scan_step (tbl : SymbolTable) : Node → SymbolTable
  | .Function function => tbl.function function.prototype
  | .Struct struct_val => tbl.struct_ struct_val
  | .FunctionPrototype function_prototype => tbl.function function_prototype

/-- All leaves of the expression are number literals or variables. -/
def Expression.onlyNumVarLeaves : Expression → Bool
  | .BinaryExpression lhs _ rhs => lhs.onlyNumVarLeaves && rhs.onlyNumVarLeaves
  | .Number _ => true
  | .Variable _ => true
  | .FunctionCall _ _ => false

/-! ## Map lemmas -/

theorem SMap.lookup_remove {α : Type} (m : SMap α) (k k' : String) :
    SMap.lookup (SMap.remove m k) k' = if k' = k then none else SMap.lookup m k' := by
  induction m with
  | nil => simp [SMap.remove, SMap.lookup]
  | cons hd tl ih =>
    obtain ⟨a, b⟩ := hd
    by_cases hak : a = k <;> by_cases hk' : k' = k
    · subst hak; subst hk'
      simp [SMap.remove, ih]
    · subst hak
      have hak' : ¬a = k' := fun h => hk' h.symm
      simp [SMap.remove, SMap.lookup, ih, hk', hak']
    · subst hk'
      simp [SMap.remove, SMap.lookup, hak, ih]
    · by_cases hak' : a = k'
      · subst hak'
        simp [SMap.remove, SMap.lookup, hak, hk', ih]
      · simp [SMap.remove, SMap.lookup, hak, hak', hk', ih]

theorem SMap.lookup_insert {α : Type} (m : SMap α) (k k' : String) (v : α) :
    SMap.lookup (SMap.insert m k v) k' = if k = k' then some v else SMap.lookup m k' := by
  by_cases h : k = k'
  · subst h
    simp [SMap.insert, SMap.lookup]
  · have h' : ¬k' = k := fun hh => h hh.symm
    simp [SMap.insert, SMap.lookup, SMap.lookup_remove, h, h']

/-! ## Global-symbol-scan lemmas -/

theorem SymbolTable.ast_node_eq (tbl : SymbolTable) (n : Node) :
    tbl.ast_node n = .ok (tbl.scan_step n) := by
  cases n <;> rfl

theorem SymbolTable.scan_nodes_eq (ns : List Node) :
    ∀ tbl, SymbolTable.scan_nodes tbl ns = .ok (ns.foldl SymbolTable.scan_step tbl) := by
  induction ns with
  | nil => intro tbl; rfl
  | cons n rest ih =>
    intro tbl
    rw [SymbolTable.scan_nodes, SymbolTable.ast_node_eq]
    simpa using ih (tbl.scan_step n)

theorem SymbolTable.scan_step_functions_lookup_some (tbl : SymbolTable) (n : Node)
    (p : FunctionPrototype) (k : String) (hp : n.proto = some p) :
    ((tbl.scan_step n).functions).lookup k =
      if p.name.inner = k then some p else tbl.functions.lookup k := by
  cases n with
  | Function f =>
    simp only [Node.proto, Option.some.injEq] at hp
    subst hp
    simp [SymbolTable.scan_step, SymbolTable.function, SMap.lookup_insert]
  | FunctionPrototype q =>
    simp only [Node.proto, Option.some.injEq] at hp
    subst hp
    simp [SymbolTable.scan_step, SymbolTable.function, SMap.lookup_insert]
  | Struct s => simp [Node.proto] at hp

theorem SymbolTable.scan_step_functions_lookup_none (tbl : SymbolTable) (n : Node)
    (k : String) (hp : n.proto = none) :
    ((tbl.scan_step n).functions).lookup k = tbl.functions.lookup k := by
  cases n with
  | Function f => simp [Node.proto] at hp
  | FunctionPrototype q => simp [Node.proto] at hp
  | Struct s => rfl

theorem SymbolTable.scan_step_structs_lookup_some (tbl : SymbolTable) (n : Node)
    (s : Struct) (k : String) (hp : n.structDef = some s) :
    ((tbl.scan_step n).structs).lookup k =
      if s.name.inner = k then some s else tbl.structs.lookup k := by
  cases n with
  | Function f => simp [Node.structDef] at hp
  | FunctionPrototype q => simp [Node.structDef] at hp
  | Struct s' =>
    simp only [Node.structDef, Option.some.injEq] at hp
    subst hp
    simp [SymbolTable.scan_step, SymbolTable.struct_, SMap.lookup_insert]

theorem SymbolTable.scan_step_structs_lookup_none (tbl : SymbolTable) (n : Node)
    (k : String) (hp : n.structDef = none) :
    ((tbl.scan_step n).structs).lookup k = tbl.structs.lookup k := by
  cases n with
  | Function f => rfl
  | FunctionPrototype q => rfl
  | Struct s => simp [Node.structDef] at hp

theorem SymbolTable.foldl_functions_names (ns : List Node) :
    ∀ tbl, (∀ k q, tbl.functions.lookup k = some q → q.name.inner = k) →
    ∀ k q, ((ns.foldl SymbolTable.scan_step tbl).functions).lookup k = some q →
      q.name.inner = k := by
  induction ns with
  | nil => intro tbl h; exact h
  | cons n rest ih =>
    intro tbl h
    refine ih (tbl.scan_step n) ?_
    intro k q hq
    rcases hp : n.proto with _ | p
    · rw [SymbolTable.scan_step_functions_lookup_none tbl n k hp] at hq
      exact h k q hq
    · rw [SymbolTable.scan_step_functions_lookup_some tbl n p k hp] at hq
      by_cases hk : p.name.inner = k
      · rw [if_pos hk] at hq; cases hq; exact hk
      · rw [if_neg hk] at hq; exact h k q hq

theorem SymbolTable.foldl_structs_names (ns : List Node) :
    ∀ tbl, (∀ k s, tbl.structs.lookup k = some s → s.name.inner = k) →
    ∀ k s, ((ns.foldl SymbolTable.scan_step tbl).structs).lookup k = some s →
      s.name.inner = k := by
  induction ns with
  | nil => intro tbl h; exact h
  | cons n rest ih =>
    intro tbl h
    refine ih (tbl.scan_step n) ?_
    intro k s hs
    rcases hp : n.structDef with _ | s'
    · rw [SymbolTable.scan_step_structs_lookup_none tbl n k hp] at hs
      exact h k s hs
    · rw [SymbolTable.scan_step_structs_lookup_some tbl n s' k hp] at hs
      by_cases hk : s'.name.inner = k
      · rw [if_pos hk] at hs; cases hs; exact hk
      · rw [if_neg hk] at hs; exact h k s hs

theorem SymbolTable.foldl_functions_isSome (ns : List Node) :
    ∀ tbl k, (tbl.functions.lookup k).isSome →
      (((ns.foldl SymbolTable.scan_step tbl).functions).lookup k).isSome := by
  induction ns with
  | nil => intro tbl k h; exact h
  | cons n rest ih =>
    intro tbl k h
    refine ih (tbl.scan_step n) k ?_
    rcases hp : n.proto with _ | p
    · rw [SymbolTable.scan_step_functions_lookup_none tbl n k hp]
      exact h
    · rw [SymbolTable.scan_step_functions_lookup_some tbl n p k hp]
      by_cases hk : p.name.inner = k
      · simp [hk]
      · simpa [hk] using h

theorem SymbolTable.foldl_structs_isSome (ns : List Node) :
    ∀ tbl k, (tbl.structs.lookup k).isSome →
      (((ns.foldl SymbolTable.scan_step tbl).structs).lookup k).isSome := by
  induction ns with
  | nil => intro tbl k h; exact h
  | cons n rest ih =>
    intro tbl k h
    refine ih (tbl.scan_step n) k ?_
    rcases hp : n.structDef with _ | s
    · rw [SymbolTable.scan_step_structs_lookup_none tbl n k hp]
      exact h
    · rw [SymbolTable.scan_step_structs_lookup_some tbl n s k hp]
      by_cases hk : s.name.inner = k
      · simp [hk]
      · simpa [hk] using h

theorem SymbolTable.foldl_functions_no_name (post : List Node) (k : String) :
    ∀ tbl, (∀ m ∈ post, ∀ q, m.proto = some q → q.name.inner ≠ k) →
      ((post.foldl SymbolTable.scan_step tbl).functions).lookup k = tbl.functions.lookup k := by
  induction post with
  | nil => intro tbl _; rfl
  | cons m rest ih =>
    intro tbl h
    have hrest : ∀ m' ∈ rest, ∀ q, m'.proto = some q → q.name.inner ≠ k := by
      intro m' hm' q hq
      exact h m' (List.mem_cons_of_mem m hm') q hq
    rw [List.foldl_cons, ih (tbl.scan_step m) hrest]
    rcases hp : m.proto with _ | p
    · exact SymbolTable.scan_step_functions_lookup_none tbl m k hp
    · rw [SymbolTable.scan_step_functions_lookup_some tbl m p k hp]
      have : p.name.inner ≠ k := h m (List.mem_cons_self m rest) p hp
      simp [this]

theorem SymbolTable.foldl_structs_no_name (post : List Node) (k : String) :
    ∀ tbl, (∀ m ∈ post, ∀ s, m.structDef = some s → s.name.inner ≠ k) →
      ((post.foldl SymbolTable.scan_step tbl).structs).lookup k = tbl.structs.lookup k := by
  induction post with
  | nil => intro tbl _; rfl
  | cons m rest ih =>
    intro tbl h
    have hrest : ∀ m' ∈ rest, ∀ s, m'.structDef = some s → s.name.inner ≠ k := by
      intro m' hm' s hs
      exact h m' (List.mem_cons_of_mem m hm') s hs
    rw [List.foldl_cons, ih (tbl.scan_step m) hrest]
    rcases hp : m.structDef with _ | s
    · exact SymbolTable.scan_step_structs_lookup_none tbl m k hp
    · rw [SymbolTable.scan_step_structs_lookup_some tbl m s k hp]
      have : s.name.inner ≠ k := h m (List.mem_cons_self m rest) s hp
      simp [this]

/-! ## Type-checker lemmas -/

theorem except_pure_bind {ε α β : Type} (a : α) (f : α → Except ε β) :
    (Except.ok a >>= f) = f a := rfl

theorem except_error_bind {ε α β : Type} (e : ε) (f : α → Except ε β) :
    ((Except.error e : Except ε α) >>= f) = Except.error e := rfl

theorem TypeChecker.infer_ne_acm :
    ∀ (tc : TypeChecker) (e : Expression) (exp act : Nat) (fc : FunctionCall),
      tc.infer_expression_type e
        ≠ Except.error (.sem (.ArgumentCountMismatch exp act fc))
  | tc, .BinaryExpression lhs op rhs, exp, act, fc => by
    intro h
    rcases hl : tc.infer_expression_type lhs with el | l
    · have h2 : tc.infer_expression_type (.BinaryExpression lhs op rhs) = .error el := by
        simp only [TypeChecker.infer_expression_type]
        rw [hl]
        rfl
      rw [h2] at h
      cases h
      exact TypeChecker.infer_ne_acm tc lhs exp act fc hl
    · rcases hr : tc.infer_expression_type rhs with er | r
      · have h2 : tc.infer_expression_type (.BinaryExpression lhs op rhs) = .error er := by
          simp only [TypeChecker.infer_expression_type]
          rw [hl, hr]
          rfl
        rw [h2] at h
        cases h
        exact TypeChecker.infer_ne_acm tc rhs exp act fc hr
      · by_cases hlr : l = r
        · have h2 : tc.infer_expression_type (.BinaryExpression lhs op rhs) = .ok l := by
            simp only [TypeChecker.infer_expression_type]
            rw [hl, hr]
            simp only [except_pure_bind]
            simp [hlr]
          rw [h2] at h
          exact Except.noConfusion h
        · have h2 : tc.infer_expression_type (.BinaryExpression lhs op rhs)
              = .error (.sem (.TypeMismatch l op.position r)) := by
            simp only [TypeChecker.infer_expression_type]
            rw [hl, hr]
            simp only [except_pure_bind]
            simp [hlr]
          rw [h2] at h
          simp at h
  | tc, .FunctionCall name params, exp, act, fc => by
    intro h
    rcases hfn : tc.symbol_table.functions.lookup name.inner with _ | f
    · have h2 : tc.infer_expression_type (.FunctionCall name params)
          = .error (.sem (.UndefinedFunctionCall ⟨name, params⟩)) := by
        simp only [TypeChecker.infer_expression_type, TypeChecker.infer_function_call_type]
        rw [hfn]
      rw [h2] at h
      simp at h
    · rcases hrt : f.return_type with _ | rt
      · have h2 : tc.infer_expression_type (.FunctionCall name params)
            = .error (.rustPanic "Function without return value not supported yet") := by
          simp only [TypeChecker.infer_expression_type, TypeChecker.infer_function_call_type]
          rw [hfn]
          dsimp only
          rw [hrt]
        rw [h2] at h
        simp at h
      · have h2 : tc.infer_expression_type (.FunctionCall name params) = .ok rt.inner := by
          simp only [TypeChecker.infer_expression_type, TypeChecker.infer_function_call_type]
          rw [hfn]
          dsimp only
          rw [hrt]
        rw [h2] at h
        exact Except.noConfusion h
  | tc, .Number n, exp, act, fc => by
    intro h
    rcases hn : n.inner with i | f
    · have h2 : tc.infer_expression_type (.Number n) = .ok (.Basic .Int) := by
        simp only [TypeChecker.infer_expression_type, TypeChecker.number_type_inference]
        rw [hn]
      rw [h2] at h
      exact Except.noConfusion h
    · have h2 : tc.infer_expression_type (.Number n) = .ok (.Basic .Float) := by
        simp only [TypeChecker.infer_expression_type, TypeChecker.number_type_inference]
        rw [hn]
      rw [h2] at h
      exact Except.noConfusion h
  | tc, .Variable v, exp, act, fc => by
    intro h
    rcases hv : tc.variables_.lookup v.inner with _ | var
    · have h2 : tc.infer_expression_type (.Variable v)
          = .error (.sem (.UndeclaredVariable v)) := by
        simp only [TypeChecker.infer_expression_type, TypeChecker.infer_variable_type]
        rw [hv]
      rw [h2] at h
      simp at h
    · have h2 : tc.infer_expression_type (.Variable v) = .ok var.type_ := by
        simp only [TypeChecker.infer_expression_type, TypeChecker.infer_variable_type]
        rw [hv]
      rw [h2] at h
      exact Except.noConfusion h

theorem TypeChecker.check_params_ne_acm :
    ∀ (tc : TypeChecker) (ps : List Expression) (args : List FunctionArgument)
      (exp act : Nat) (fc : FunctionCall),
      tc.check_params ps args ≠ Except.error (.sem (.ArgumentCountMismatch exp act fc))
  | tc, [], args, exp, act, fc => by
    intro h
    cases args <;> exact Except.noConfusion h
  | tc, p :: ps, [], exp, act, fc => by
    intro h
    exact Except.noConfusion h
  | tc, p :: ps, a :: args, exp, act, fc => by
    intro h
    rcases hp : tc.infer_expression_type p with e | t
    · have h2 : tc.check_params (p :: ps) (a :: args) = .error e := by
        simp only [TypeChecker.check_params]
        rw [hp]
        rfl
      rw [h2] at h
      cases h
      exact TypeChecker.infer_ne_acm tc p exp act fc hp
    · by_cases ht : t = a.data_type.inner
      · have h2 : tc.check_params (p :: ps) (a :: args) = tc.check_params ps args := by
          simp only [TypeChecker.check_params]
          rw [hp]
          simp only [except_pure_bind]
          simp [ht]
        rw [h2] at h
        exact TypeChecker.check_params_ne_acm tc ps args exp act fc h
      · have h2 : tc.check_params (p :: ps) (a :: args)
            = .error (.sem (.TypeMismatch a.data_type.inner p.source_position t)) := by
          simp only [TypeChecker.check_params]
          rw [hp]
          simp only [except_pure_bind]
          simp [ht]
        rw [h2] at h
        simp at h

theorem TypeChecker.expression_ok_of_leaves :
    ∀ (tc : TypeChecker) (e : Expression),
      e.onlyNumVarLeaves = true → tc.expression e = .ok ()
  | tc, .BinaryExpression lhs op rhs, h => by
    simp only [Expression.onlyNumVarLeaves, Bool.and_eq_true] at h
    have h1 := TypeChecker.expression_ok_of_leaves tc lhs h.1
    have h2 := TypeChecker.expression_ok_of_leaves tc rhs h.2
    simp only [TypeChecker.expression]
    rw [h1]
    exact h2
  | tc, .Number n, h => rfl
  | tc, .Variable v, h => rfl
  | tc, .FunctionCall name params, h => by
    simp [Expression.onlyNumVarLeaves] at h

/-! ## Lexer lemma -/

theorem Lexer.read_comment_loop_stuck :
    ∀ (fuel : Nat) (comment : String) (last : Nat),
      Lexer.read_comment_loop fuel [(1, 'a')] comment last = .outOfFuel
  | 0, comment, last => rfl
  | fuel + 1, comment, last => Lexer.read_comment_loop_stuck fuel (comment.push 'a') 1

/-! ## Claims -/

/-- C1: the C emitter does not write `NotEqual` as `!=`; its operator table
(`Emitter::binary_expression`) maps it to the FTL spelling `=/=`, which is
not the claimed C rendering, while every other operator does get its
one-to-one C spelling. Emitting `1 =/= 2` exhibits the divergence. -/
theorem C1_not_equal_emitted_as_ftl_spelling :
    Emitter.binaryOperatorStr .NotEqual = "=/="
  ∧ ("=/=" : String) ≠ "!="
  ∧ Emitter.expression exC1Expr = "1 =/= 2"
  ∧ Emitter.binaryOperatorStr .Add = "+"
  ∧ Emitter.binaryOperatorStr .Subtract = "-"
  ∧ Emitter.binaryOperatorStr .Multiply = "*"
  ∧ Emitter.binaryOperatorStr .Divide = "/"
  ∧ Emitter.binaryOperatorStr .Less = "<"
  ∧ Emitter.binaryOperatorStr .Greater = ">"
  ∧ Emitter.binaryOperatorStr .Equal = "==" := by
  refine ⟨rfl, by decide, ?_, rfl, rfl, rfl, rfl, rfl, rfl, rfl⟩
  simp only [Emitter.expression, Emitter.number, Emitter.binaryOperatorStr, exC1Expr]
  rfl

/-- C2: the precedence-climbing step does not compare against the current
minimum operator (`min_operator` is never read in
`parse_binary_expression_rhs`), so after climbing into `b * c` it also
consumes the lower-precedence `<`: parsing `a + b * c < d` yields
`Add(a, Less(Multiply(b, c), d))` and not the precedence-respecting
`Less(Add(a, Multiply(b, c)), d)` the claim demands. -/
theorem C2_climbing_consumes_lower_precedence_operator :
    parse_binary_expression 32 exC2Tokens = .ok (exC2Result, [])
  ∧ exC2Result.shape
      = ExprShape.bin .Add (.var "a")
          (.bin .Less (.bin .Multiply (.var "b") (.var "c")) (.var "d"))
  ∧ ExprShape.bin .Add (.var "a")
        (.bin .Less (.bin .Multiply (.var "b") (.var "c")) (.var "d"))
      ≠ ExprShape.bin .Less
          (.bin .Add (.var "a") (.bin .Multiply (.var "b") (.var "c"))) (.var "d") :=
  ⟨rfl, rfl, by decide⟩

/-- C3: a variable declaration's initializer is parsed with
`parse_primary_expression`, not the full expression grammar: on the token
sequence of `def main(): int { var x: int = 1 + 2 * 3 return x }` the
declaration takes only `1` as its value, and the parse then fails with
`IllegalToken {context: "instruction"}` at the `+` token instead of
succeeding with `Add(1, Multiply(2, 3))`. -/
theorem C3_initializer_parsed_as_primary_expression :
    parse_variable_declaration 64 (exC3Tokens.drop 7) = .ok (exC3Decl, exC3Tokens.drop 13)
  ∧ exC3Decl.value.shape = .num (.Int 1)
  ∧ (exC3Tokens.drop 13).head? = some (exTok 33 .Plus)
  ∧ parse_function_definition 64 exC3Tokens
      = .error (.IllegalToken (some (exTok 33 .Plus)) "instruction") :=
  ⟨rfl, rfl, rfl, rfl⟩

/-- C4: the variables map is not restored after an if-true block when the
block merely assigns to an enclosing variable: `variable_assignment` calls
`add_variable`, which records the assigned name in the *block's* frame, so
`drop_call_stack_frame` removes it from scope. In a state where `x: int` is
declared in the function frame, checking `if 1 < 2 { x = 2 }` succeeds but
leaves `x` out of the variables map; the program
`def main(): int { var x: int = 1  if 1 < 2 { x = 2 } }` is accepted with
this unsound final scope, and appending `x = 3` after the block makes the
checker reject the program with `UndeclaredVariable`. -/
theorem C4_assignment_in_nested_block_unscopes_variable :
    TypeChecker.type_check SymbolTable.default [exC4Fn exC4Body1] = .ok ()
  ∧ exC4State.variables_.lookup "x" = some exC4Var
  ∧ exC4State.if_else exC4IfElse = .ok exC4Result
  ∧ exC4Result.variables_.lookup "x" = none
  ∧ exC4Result.call_stack = exC4State.call_stack
  ∧ TypeChecker.type_check SymbolTable.default [exC4Fn exC4Body2]
      = .error (.sem (.UndeclaredVariable ⟨exPos 30, "x"⟩)) :=
  ⟨rfl, rfl, rfl, rfl, rfl, rfl⟩

set_option maxHeartbeats 1600000 in
/-- C5: the keyword table of the (spec-modelled) lexer maps exactly the
twelve spellings `def extern struct var ptr if else while return bitor
bitand mod` to their keyword tokens, and every other string to
`Identifier(string)`; no other string maps to a keyword token. -/
theorem C5_keyword_table (s : String) :
    (Lexer.parse_string s = .Def ↔ s = "def")
  ∧ (Lexer.parse_string s = .Extern ↔ s = "extern")
  ∧ (Lexer.parse_string s = .Struct ↔ s = "struct")
  ∧ (Lexer.parse_string s = .Var ↔ s = "var")
  ∧ (Lexer.parse_string s = .Pointer ↔ s = "ptr")
  ∧ (Lexer.parse_string s = .If ↔ s = "if")
  ∧ (Lexer.parse_string s = .Else ↔ s = "else")
  ∧ (Lexer.parse_string s = .While ↔ s = "while")
  ∧ (Lexer.parse_string s = .Return ↔ s = "return")
  ∧ (Lexer.parse_string s = .BitOr ↔ s = "bitor")
  ∧ (Lexer.parse_string s = .BitAnd ↔ s = "bitand")
  ∧ (Lexer.parse_string s = .Modulus ↔ s = "mod")
  ∧ (s ∉ Lexer.keywords → Lexer.parse_string s = .Identifier s) := by
  simp only [Lexer.parse_string, Lexer.keywords]
  split_ifs with h1 h2 h3 h4 h5 h6 h7 h8 h9 h10 h11 h12 <;> simp_all

/-- C5 witness: `struct` is the `Struct` keyword token and `hello` is an
identifier; obtained by instantiating the keyword-table theorem. -/
theorem C5_keyword_table_witness :
    Lexer.parse_string "struct" = .Struct ∧ Lexer.parse_string "hello" = .Identifier "hello" :=
  ⟨(C5_keyword_table "struct").2.2.1.mpr rfl,
   (C5_keyword_table "hello").2.2.2.2.2.2.2.2.2.2.2.2 (by decide)⟩

/-- C6: a pull on the lexer snapshot does not terminate on an input that
begins a comment: `Lexer::read_comment`'s loop never advances its iterator
when it peeks an ordinary comment character, so on `#a` the loop re-peeks
`a` forever —`read_comment` returns within no fuel bound at all, refuting
the claim that each pull terminates. -/
theorem C6_read_comment_diverges_on_comment_input :
    ∀ fuel : Nat, Lexer.read_comment fuel [(0, '#'), (1, 'a')] = .outOfFuel :=
  fun fuel => Lexer.read_comment_loop_stuck fuel "" 0

/-- C7 counterexample: the C emitter renders `Basic(Float)` as `float`, not
the claimed `double`, and `Pointer(Int)` as the prefix text `ptrint`, not
the claimed postfix `int*`. -/
theorem C7_counterexample :
    Emitter.data_type ⟨exPos 0, .Basic .Float⟩ = "float"
  ∧ ("float" : String) ≠ "double"
  ∧ Emitter.data_type ⟨exPos 0, .Pointer ⟨exPos 4, .Basic .Int⟩⟩ = "ptrint"
  ∧ ("ptrint" : String) ≠ "int*" := by
  refine ⟨?_, by decide, ?_, by decide⟩
  · simp [Emitter.data_type, Emitter.basic_data_type]
  · simp [Emitter.data_type, Emitter.basic_data_type]

/-- C7 (amended): `Emitter::data_type` renders `Basic(Int)` as `int`,
`Basic(Float)` as `float`, `Struct(name)` as the name, and `Pointer(T)` as
the prefix `ptr` immediately followed by the rendering of T (no `*`). -/
theorem C7_data_type_rendering (pos : SourcePositionRange) (b : BasicDataType)
    (p : PositionContainer DataType) (name : String) :
    Emitter.data_type ⟨pos, .Basic .Int⟩ = "int"
  ∧ Emitter.data_type ⟨pos, .Basic .Float⟩ = "float"
  ∧ Emitter.data_type ⟨pos, .Basic b⟩ = Emitter.basic_data_type b
  ∧ Emitter.data_type ⟨pos, .Struct name⟩ = name
  ∧ Emitter.data_type ⟨pos, .Pointer p⟩ = "ptr" ++ Emitter.data_type p := by
  refine ⟨?_, ?_, ?_, ?_, ?_⟩ <;>
    simp [Emitter.data_type, Emitter.basic_data_type, Emitter.struct_name]

/-- C8: for a call whose callee is in the function symbol table,
`TypeChecker::function_call` fails with `ArgumentCountMismatch {expected:
declared argument count, actual: supplied param count}` exactly when the
two counts differ. -/
theorem C8_argument_count_mismatch_iff (tc : TypeChecker)
    (name : PositionContainer String) (params : List Expression)
    (proto : FunctionPrototype)
    (h : tc.symbol_table.functions.lookup name.inner = some proto) :
    tc.function_call name params
      = .error (.sem (.ArgumentCountMismatch proto.args.length params.length
          ⟨name, params⟩))
    ↔ params.length ≠ proto.args.length := by
  constructor
  · intro heq
    by_contra hlen
    simp only [TypeChecker.function_call, h] at heq
    rw [if_neg (fun hcon => hcon hlen)] at heq
    exact TypeChecker.check_params_ne_acm tc params proto.args _ _ _ heq
  · intro hne
    simp only [TypeChecker.function_call, h]
    rw [if_pos hne]

/-- C8 witness: the spec's example — `f` declared with one `int` argument,
called as `f(1, 2)` — yields `ArgumentCountMismatch {expected: 1,
actual: 2}`, by the iff at this concrete input. -/
theorem C8_argument_count_mismatch_iff_witness :
    exC8Tc.symbol_table.functions.lookup "f" = some exC8Proto
  ∧ (exC8Tc.function_call exC8Name exC8Params
      = .error (.sem (.ArgumentCountMismatch 1 2 ⟨exC8Name, exC8Params⟩))
     ↔ (2 : Nat) ≠ 1)
  ∧ exC8Tc.function_call exC8Name exC8Params
      = .error (.sem (.ArgumentCountMismatch 1 2 ⟨exC8Name, exC8Params⟩)) :=
  ⟨rfl, C8_argument_count_mismatch_iff exC8Tc exC8Name exC8Params exC8Proto rfl, rfl⟩

/-- C9: the global symbol scan is infallible: it returns a table in which
every function or extern prototype node's name is bound to a prototype of
that very name, and every struct node's name to a struct of that name; and
when several nodes share a name, the binding is the last such node's entry
(its prototype/struct itself). -/
theorem C9_global_symbol_scan_spec (nodes : List Node) :
    (∃ tbl, SymbolTable.global_symbol_scan nodes = .ok tbl
      ∧ (∀ node ∈ nodes, ∀ p, node.proto = some p →
          ∃ q, tbl.functions.lookup p.name.inner = some q
            ∧ q.name.inner = p.name.inner)
      ∧ (∀ node ∈ nodes, ∀ s, node.structDef = some s →
          ∃ r, tbl.structs.lookup s.name.inner = some r
            ∧ r.name.inner = s.name.inner))
  ∧ (∀ pre post node p tbl, nodes = pre ++ node :: post → node.proto = some p →
      (∀ m ∈ post, ∀ q, m.proto = some q → q.name.inner ≠ p.name.inner) →
      SymbolTable.global_symbol_scan nodes = .ok tbl →
      tbl.functions.lookup p.name.inner = some p)
  ∧ (∀ pre post node s tbl, nodes = pre ++ node :: post → node.structDef = some s →
      (∀ m ∈ post, ∀ r, m.structDef = some r → r.name.inner ≠ s.name.inner) →
      SymbolTable.global_symbol_scan nodes = .ok tbl →
      tbl.structs.lookup s.name.inner = some s) := by
  have hscan : SymbolTable.global_symbol_scan nodes
      = .ok (nodes.foldl SymbolTable.scan_step SymbolTable.default) :=
    SymbolTable.scan_nodes_eq nodes SymbolTable.default
  refine ⟨⟨nodes.foldl SymbolTable.scan_step SymbolTable.default, hscan, ?_, ?_⟩, ?_, ?_⟩
  · intro node hmem p hp
    obtain ⟨pre, post, rfl⟩ := List.append_of_mem hmem
    have hsome : (((pre ++ node :: post).foldl SymbolTable.scan_step
        SymbolTable.default).functions.lookup p.name.inner).isSome := by
      rw [List.foldl_append, List.foldl_cons]
      refine SymbolTable.foldl_functions_isSome post _ _ ?_
      rw [SymbolTable.scan_step_functions_lookup_some _ node p _ hp]
      simp
    obtain ⟨q, hq⟩ := Option.isSome_iff_exists.mp hsome
    refine ⟨q, hq, ?_⟩
    refine SymbolTable.foldl_functions_names (pre ++ node :: post) SymbolTable.default
      ?_ p.name.inner q hq
    intro k q' hq'
    simp [SymbolTable.default, SMap.empty, SMap.lookup] at hq'
  · intro node hmem s hs
    obtain ⟨pre, post, rfl⟩ := List.append_of_mem hmem
    have hsome : (((pre ++ node :: post).foldl SymbolTable.scan_step
        SymbolTable.default).structs.lookup s.name.inner).isSome := by
      rw [List.foldl_append, List.foldl_cons]
      refine SymbolTable.foldl_structs_isSome post _ _ ?_
      rw [SymbolTable.scan_step_structs_lookup_some _ node s _ hs]
      simp
    obtain ⟨r, hr⟩ := Option.isSome_iff_exists.mp hsome
    refine ⟨r, hr, ?_⟩
    refine SymbolTable.foldl_structs_names (pre ++ node :: post) SymbolTable.default
      ?_ s.name.inner r hr
    intro k r' hr'
    simp [SymbolTable.default, SMap.empty, SMap.lookup] at hr'
  · intro pre post node p tbl heq hp hpost htbl
    subst heq
    rw [hscan] at htbl
    cases htbl
    rw [List.foldl_append, List.foldl_cons,
      SymbolTable.foldl_functions_no_name post p.name.inner _ hpost,
      SymbolTable.scan_step_functions_lookup_some _ node p _ hp]
    simp
  · intro pre post node s tbl heq hs hpost htbl
    subst heq
    rw [hscan] at htbl
    cases htbl
    rw [List.foldl_append, List.foldl_cons,
      SymbolTable.foldl_structs_no_name post s.name.inner _ hpost,
      SymbolTable.scan_step_structs_lookup_some _ node s _ hs]
    simp

/-- C9 witness: scanning two extern prototypes both named `f` succeeds and
binds `f` to the later prototype, by the scan theorem at this input. -/
theorem C9_global_symbol_scan_spec_witness :
    exC9Nodes = [Node.FunctionPrototype exC9P1] ++ Node.FunctionPrototype exC9P2 :: []
  ∧ (Node.FunctionPrototype exC9P2).proto = some exC9P2
  ∧ SymbolTable.global_symbol_scan exC9Nodes = .ok exC9Tbl
  ∧ exC9Tbl.functions.lookup "f" = some exC9P2 :=
  ⟨rfl, rfl, rfl,
    (C9_global_symbol_scan_spec exC9Nodes).2.1
      [Node.FunctionPrototype exC9P1] [] (Node.FunctionPrototype exC9P2) exC9P2 exC9Tbl
      rfl rfl (by intro m hm; cases hm) rfl⟩

/-- C10: a bare `BinaryExpression` instruction whose leaves are all number
literals or variables always passes the type checker with the state
unchanged — no operand types are compared on this path (the comparison
lives in `infer_expression_type`, which the checker invokes only for a
declaration's value, an assignment's value, and call arguments). -/
theorem C10_bare_binary_expression_instruction_passes (tc : TypeChecker)
    (lhs rhs : Expression) (op : PositionContainer BinaryOperator)
    (h : (Expression.BinaryExpression lhs op rhs).onlyNumVarLeaves = true) :
    tc.instruction (.Expression (.BinaryExpression lhs op rhs)) = .ok tc := by
  have he := TypeChecker.expression_ok_of_leaves tc _ h
  simp only [TypeChecker.instruction]
  rw [he]
  rfl

/-- C10 witness: the bare instruction `1 + 2.5` passes (by the theorem at
this input) even though inferring its type reports
`TypeMismatch {expected: Int, actual: Float}` — the operand types differ. -/
theorem C10_bare_binary_expression_instruction_passes_witness :
    exC10Expr.onlyNumVarLeaves = true
  ∧ exC10Tc.instruction (.Expression exC10Expr) = .ok exC10Tc
  ∧ exC10Tc.infer_expression_type exC10Expr
      = .error (.sem (.TypeMismatch (.Basic .Int) (exPos 2) (.Basic .Float))) :=
  ⟨rfl,
   C10_bare_binary_expression_instruction_passes exC10Tc _ _ _ rfl,
   rfl⟩

end FTL
